import Mathlib

/-!
Verification of the Scenario Simulation Engine

The engine is the `runLocalSimulation` function of the `SimulationPanel`
component (src/frontend/src/pages/Vendors.tsx).  It is a pure calculator
over JavaScript numbers; we embed it over `ℚ` (the idealised exact
arithmetic the specification describes), with JavaScript's `Math.round`
modelled as `⌊x + 1/2⌋` (round half toward +∞) and `toFixed(1)` /
`toFixed(2)` modelled with the same tie-breaking rule.

Each local constant of the source function becomes a top-level
definition of the same name, so every definition can be diffed line by
line against the source.
-/

/-- JavaScript `Math.round`: round half toward positive infinity. -/
def jsRound (x : ℚ) : ℤ := ⌊x + 1/2⌋

/-- JavaScript `parseFloat(x.toFixed(1))`: one decimal digit, ties toward +∞. -/
def toFixed1Val (x : ℚ) : ℚ := (jsRound (10 * x) : ℚ) / 10

/-- JavaScript `x.toFixed(2)` as a string: two decimal digits, ties toward +∞. -/
def toFixed2 (x : ℚ) : String :=
  let n : ℤ := jsRound (100 * x)
  let sign := if n < 0 then "-" else ""
  let m := n.natAbs
  let frac := m % 100
  sign ++ toString (m / 100) ++ "." ++ (if frac < 10 then "0" else "") ++ toString frac

/-- `SimulationParams` (Vendors.tsx): the five scenario levers. -/
structure SimulationParams where
  sales_growth_multiplier : ℚ
  expense_growth_multiplier : ℚ
  fraud_sensitivity : ℚ
  supplier_delay_factor : ℚ
  reorder_threshold_multiplier : ℚ
  deriving DecidableEq

/-- The `metadata` field of `SimulationResult` (Vendors.tsx). -/
structure SimulationMetadata where
  base_health_score : ℚ
  base_expense_total : ℚ
  fraud_rate_percent : ℚ
  deriving DecidableEq

/-- `SimulationResult` (Vendors.tsx).  All numeric fields are JavaScript
numbers, embedded as `ℚ`; `revenue_forecast` is the ordered list of
`{ period, value }` pairs. -/
structure SimulationResult where
  new_health_score : ℚ
  delta_from_base : ℚ
  projected_cash : ℚ
  risk_index : ℚ
  revenue_forecast : List (String × ℚ)
  explanation_summary : String
  metadata : SimulationMetadata
  deriving DecidableEq

/-- `DEFAULT_PARAMS` (Vendors.tsx): every lever at its neutral value 1.0. -/
def DEFAULT_PARAMS : SimulationParams :=
  { sales_growth_multiplier := 1.0
    expense_growth_multiplier := 1.0
    fraud_sensitivity := 1.0
    supplier_delay_factor := 1.0
    reorder_threshold_multiplier := 1.0 }

/-- `baseResult` (Vendors.tsx): the fixed in-component baseline constant. -/
def baseResult : SimulationResult :=
  { new_health_score := 75
    delta_from_base := 0
    projected_cash := 100000
    risk_index := 40
    revenue_forecast :=
      [("P1", 80000), ("P2", 82500), ("P3", 85000), ("P4", 87500)]
    explanation_summary :=
      "Baseline scenario using current health, expense and fraud signals to project revenue, cash and risk over the next four periods."
    metadata :=
      { base_health_score := 75
        base_expense_total := 50000
        fraud_rate_percent := 10 } }

/-- `const baseHealth = baseResult.metadata.base_health_score`. -/
def baseHealth : ℚ := baseResult.metadata.base_health_score

/-- `const baseExpense = baseResult.metadata.base_expense_total`. -/
def baseExpense : ℚ := baseResult.metadata.base_expense_total

/-- `const baseFraud = baseResult.metadata.fraud_rate_percent`. -/
def baseFraud : ℚ := baseResult.metadata.fraud_rate_percent

/-- `const baseRevenue0 = baseExpense * 1.4`. -/
def baseRevenue0 : ℚ := baseExpense * 1.4

/-- `const baseSeries = [0, 1, 2, 3].map((i) => baseRevenue0 * (1 + 0.03 * i))`. -/
def baseSeries : List ℚ :=
  ([0, 1, 2, 3] : List ℚ).map (fun i => baseRevenue0 * (1 + 0.03 * i))

/-- `const revenueSeries = baseSeries.map((v) => v * p.sales_growth_multiplier)`. -/
def revenueSeries (p : SimulationParams) : List ℚ :=
  baseSeries.map (fun v => v * p.sales_growth_multiplier)

/-- `const simulatedExpenseTotal = baseExpense * p.expense_growth_multiplier`. -/
def simulatedExpenseTotal (p : SimulationParams) : ℚ :=
  baseExpense * p.expense_growth_multiplier

/-- `const revenueSum = revenueSeries.reduce((acc, v) => acc + v, 0)`. -/
def revenueSum (p : SimulationParams) : ℚ :=
  (revenueSeries p).foldl (fun acc v => acc + v) 0

/-- `const expenseSum = simulatedExpenseTotal * 4`. -/
def expenseSum (p : SimulationParams) : ℚ := simulatedExpenseTotal p * 4

/-- `const projectedCash = 100_000 + revenueSum - expenseSum`. -/
def projectedCash (p : SimulationParams) : ℚ :=
  100000 + revenueSum p - expenseSum p

/-- `const fraudComponent = baseFraud * (0.6 * p.fraud_sensitivity)`. -/
def fraudComponent (p : SimulationParams) : ℚ :=
  baseFraud * (0.6 * p.fraud_sensitivity)

/-- `const inventoryComponent = (p.supplier_delay_factor - 1) * 40 + (p.reorder_threshold_multiplier - 1) * 25`. -/
def inventoryComponent (p : SimulationParams) : ℚ :=
  (p.supplier_delay_factor - 1) * 40 + (p.reorder_threshold_multiplier - 1) * 25

/-- `const expenseComponent = (p.expense_growth_multiplier - 1) * 60`. -/
def expenseComponent (p : SimulationParams) : ℚ :=
  (p.expense_growth_multiplier - 1) * 60

/-- `const rawRisk = fraudComponent + inventoryComponent + expenseComponent`. -/
def rawRisk (p : SimulationParams) : ℚ :=
  fraudComponent p + inventoryComponent p + expenseComponent p

/-- `const riskIndex = Math.max(0, Math.min(100, rawRisk))`. -/
def riskIndex (p : SimulationParams) : ℚ := max 0 (min 100 (rawRisk p))

/-- `const revenueVsExpenseDelta = (p.sales_growth_multiplier - p.expense_growth_multiplier) * 18`. -/
def revenueVsExpenseDelta (p : SimulationParams) : ℚ :=
  (p.sales_growth_multiplier - p.expense_growth_multiplier) * 18

/-- `const riskDelta = -((riskIndex - 40) / 4.5)`. -/
def riskDelta (p : SimulationParams) : ℚ := -((riskIndex p - 40) / 4.5)

/-- `const supplierDelta = -(p.supplier_delay_factor - 1) * 10`. -/
def supplierDelta (p : SimulationParams) : ℚ :=
  -(p.supplier_delay_factor - 1) * 10

/-- `const healthDelta = revenueVsExpenseDelta + riskDelta + supplierDelta`. -/
def healthDelta (p : SimulationParams) : ℚ :=
  revenueVsExpenseDelta p + riskDelta p + supplierDelta p

/-- `const newHealth = Math.max(0, Math.min(100, baseHealth + healthDelta))`. -/
def newHealth (p : SimulationParams) : ℚ :=
  max 0 (min 100 (baseHealth + healthDelta p))

/-- `const deltaFromBase = newHealth - baseHealth`. -/
def deltaFromBase (p : SimulationParams) : ℚ := newHealth p - baseHealth

/-- `const revenueForecast = revenueSeries.map((v, i) => ({ period : P(i+1), value : Math.round(v) }))`. -/
def revenueForecast (p : SimulationParams) : List (String × ℚ) :=
  (revenueSeries p).enum.map
    (fun iv => ("P" ++ toString (iv.1 + 1), ((jsRound iv.2 : ℤ) : ℚ)))

/-- Template sentence pushed when `p.sales_growth_multiplier !== 1` and `pct >= 0`. -/
def salesIncreaseSentence (pct : ℤ) : String :=
  "Sales growth increased by " ++ toString pct ++
    "% which lifts projected revenue across the horizon."

/-- Template sentence pushed when `p.sales_growth_multiplier !== 1` and `pct < 0`. -/
def salesReduceSentence (pct : ℤ) : String :=
  "Sales growth reduced by " ++ toString pct ++
    "% which compresses projected revenue."

/-- Template sentence pushed when `p.expense_growth_multiplier !== 1` and `pct >= 0`. -/
def expenseGrowSentence (pct : ℤ) : String :=
  "Expenses are projected to grow by " ++ toString pct ++
    "%, creating additional pressure on cash and health."

/-- Template sentence pushed when `p.expense_growth_multiplier !== 1` and `pct < 0`. -/
def expenseReduceSentence (pct : ℤ) : String :=
  "Expenses are reduced by " ++ toString pct ++
    "%, supporting stronger cash generation."

/-- Template sentence pushed when `p.fraud_sensitivity !== 1`. -/
def fraudSentence (p : SimulationParams) : String :=
  "Fraud sensitivity set to " ++ toFixed2 p.fraud_sensitivity ++
    " changes how strongly fraud findings influence the unified risk index."

/-- Template sentence pushed when `p.supplier_delay_factor !== 1 || p.reorder_threshold_multiplier !== 1`. -/
def supplySentence : String :=
  "Supply-chain levers (supplier delays and reorder thresholds) adjust inventory risk and slightly affect overall health."

/-- The fixed fallback sentence used when `explanationParts.join(' ')` is empty. -/
def fallbackSentence : String :=
  "Simulation uses current baseline assumptions to project revenue, cash and risk over the next four periods."

/-- The `explanationParts` array: the source pushes one sentence per `if`,
in the fixed order sales, expense, fraud, supply-chain. -/
def explanationParts (p : SimulationParams) : List String :=
  (if p.sales_growth_multiplier ≠ 1 then
      [let pct := jsRound ((p.sales_growth_multiplier - 1) * 100)
       if 0 ≤ pct then salesIncreaseSentence pct else salesReduceSentence (-pct)]
    else []) ++
  (if p.expense_growth_multiplier ≠ 1 then
      [let pct := jsRound ((p.expense_growth_multiplier - 1) * 100)
       if 0 ≤ pct then expenseGrowSentence pct else expenseReduceSentence (-pct)]
    else []) ++
  (if p.fraud_sensitivity ≠ 1 then [fraudSentence p] else []) ++
  (if p.supplier_delay_factor ≠ 1 ∨ p.reorder_threshold_multiplier ≠ 1 then
      [supplySentence]
    else [])

/-- `const explanation_summary = explanationParts.join(' ') || fallback`. -/
def explanationSummary (p : SimulationParams) : String :=
  let joined := String.intercalate " " (explanationParts p)
  if joined = "" then fallbackSentence else joined

/-- `runLocalSimulation` (Vendors.tsx): assembles the returned `SimulationResult`. -/
def runLocalSimulation (p : SimulationParams) : SimulationResult :=
  { new_health_score := toFixed1Val (newHealth p)
    delta_from_base := toFixed1Val (deltaFromBase p)
    projected_cash := ((jsRound (projectedCash p) : ℤ) : ℚ)
    risk_index := toFixed1Val (riskIndex p)
    revenue_forecast := revenueForecast p
    explanation_summary := explanationSummary p
    metadata := baseResult.metadata }

/-- The explanation contract as the specification states it: the template
sentences of exactly those levers that differ from neutral, joined by single
spaces in the fixed order, with the fixed fallback sentence exactly when no
lever differs from 1.0 (rather than the source's emptiness test on the
joined string). -/
def specExplanationSummary (p : SimulationParams) : String :=
  if p.sales_growth_multiplier = 1 ∧ p.expense_growth_multiplier = 1 ∧
      p.fraud_sensitivity = 1 ∧ p.supplier_delay_factor = 1 ∧
      p.reorder_threshold_multiplier = 1 then
    fallbackSentence
  else
    String.intercalate " " (explanationParts p)

/-- Scenario of §8: expense growth 1.3, every other lever neutral. -/
def pExpense13 : SimulationParams :=
  { DEFAULT_PARAMS with expense_growth_multiplier := 1.3 }

/-- A loss scenario: sales growth multiplier 0, every other lever neutral. -/
def pSalesZero : SimulationParams :=
  { DEFAULT_PARAMS with sales_growth_multiplier := 0 }

/-- Scenario with sales growth 1.2, every other lever neutral. -/
def pSales12 : SimulationParams :=
  { DEFAULT_PARAMS with sales_growth_multiplier := 1.2 }

/-- Scenario that moves only the three risk levers. -/
def pRisky : SimulationParams :=
  { sales_growth_multiplier := 1.0
    expense_growth_multiplier := 1.0
    fraud_sensitivity := 1.5
    supplier_delay_factor := 1.2
    reorder_threshold_multiplier := 0.7 }

/-! ### Helper lemmas -/

lemma jsRound_le_jsRound {a b : ℚ} (h : a ≤ b) : jsRound a ≤ jsRound b :=
  Int.floor_le_floor (by linarith)

lemma toFixed1Val_nonneg {x : ℚ} (h : 0 ≤ x) : 0 ≤ toFixed1Val x := by
  unfold toFixed1Val jsRound
  have h1 : (0 : ℤ) ≤ ⌊10 * x + 1/2⌋ := Int.le_floor.mpr (by push_cast; linarith)
  have h2 : (0 : ℚ) ≤ ((⌊10 * x + 1/2⌋ : ℤ) : ℚ) := by exact_mod_cast h1
  exact div_nonneg h2 (by norm_num)

lemma toFixed1Val_le_100 {x : ℚ} (h : x ≤ 100) : toFixed1Val x ≤ 100 := by
  unfold toFixed1Val jsRound
  have h1 : ⌊10 * x + 1/2⌋ ≤ (1000 : ℤ) := by
    have h2 : (10 : ℚ) * x + 1/2 ≤ 2001/2 := by linarith
    have h3 := Int.floor_le_floor h2
    have h4 : (⌊(2001/2 : ℚ)⌋ : ℤ) = 1000 := by norm_num
    omega
  have h5 : ((⌊10 * x + 1/2⌋ : ℤ) : ℚ) ≤ 1000 := by exact_mod_cast h1
  linarith

lemma eq_empty_of_length_zero {s : String} (h : s.length = 0) : s = "" := by
  rcases s with ⟨d⟩
  cases d with
  | nil => rfl
  | cons c cs => simp [String.length] at h

lemma append_ne_left (a b : String) (h : a ≠ "") : a ++ b ≠ "" := by
  intro hc
  apply h
  apply eq_empty_of_length_zero
  have hl := String.length_append a b
  rw [hc] at hl
  have hz : ("" : String).length = 0 := rfl
  omega

lemma salesIncreaseSentence_ne (pct : ℤ) : salesIncreaseSentence pct ≠ "" := by
  unfold salesIncreaseSentence
  exact append_ne_left _ _ (append_ne_left _ _ (by decide))

lemma salesReduceSentence_ne (pct : ℤ) : salesReduceSentence pct ≠ "" := by
  unfold salesReduceSentence
  exact append_ne_left _ _ (append_ne_left _ _ (by decide))

lemma expenseGrowSentence_ne (pct : ℤ) : expenseGrowSentence pct ≠ "" := by
  unfold expenseGrowSentence
  exact append_ne_left _ _ (append_ne_left _ _ (by decide))

lemma expenseReduceSentence_ne (pct : ℤ) : expenseReduceSentence pct ≠ "" := by
  unfold expenseReduceSentence
  exact append_ne_left _ _ (append_ne_left _ _ (by decide))

lemma fraudSentence_ne (p : SimulationParams) : fraudSentence p ≠ "" := by
  unfold fraudSentence
  exact append_ne_left _ _ (append_ne_left _ _ (by decide))

lemma supplySentence_ne : supplySentence ≠ "" := by decide

lemma fallbackSentence_ne : fallbackSentence ≠ "" := by decide

lemma salesBranch_ne (pct : ℤ) :
    (if 0 ≤ pct then salesIncreaseSentence pct else salesReduceSentence (-pct)) ≠ "" := by
  split_ifs
  · exact salesIncreaseSentence_ne _
  · exact salesReduceSentence_ne _

lemma expenseBranch_ne (pct : ℤ) :
    (if 0 ≤ pct then expenseGrowSentence pct else expenseReduceSentence (-pct)) ≠ "" := by
  split_ifs
  · exact expenseGrowSentence_ne _
  · exact expenseReduceSentence_ne _

lemma intercalate_go_ne (s : String) (as : List String) :
    ∀ acc, acc ≠ "" → String.intercalate.go acc s as ≠ "" := by
  induction as with
  | nil => intro acc h; simpa [String.intercalate.go] using h
  | cons a as ih =>
      intro acc h
      simp only [String.intercalate.go]
      exact ih _ (append_ne_left _ _ (append_ne_left _ _ h))

lemma intercalate_cons_ne (a : String) (as : List String) (h : a ≠ "") :
    String.intercalate " " (a :: as) ≠ "" := by
  simp only [String.intercalate]
  exact intercalate_go_ne _ as a h

lemma explanationParts_mem_ne (p : SimulationParams) :
    ∀ x ∈ explanationParts p, x ≠ "" := by
  intro x hx
  unfold explanationParts at hx
  simp only [List.mem_append] at hx
  rcases hx with (((hx | hx) | hx) | hx) <;> split at hx <;>
    simp only [List.mem_singleton, List.not_mem_nil] at hx <;> try exact absurd hx (by simp)
  · subst hx; exact salesBranch_ne _
  · subst hx; exact expenseBranch_ne _
  · subst hx; exact fraudSentence_ne _
  · subst hx; exact supplySentence_ne

lemma explanationParts_eq_nil_iff (p : SimulationParams) :
    explanationParts p = [] ↔
      (p.sales_growth_multiplier = 1 ∧ p.expense_growth_multiplier = 1 ∧
       p.fraud_sensitivity = 1 ∧ p.supplier_delay_factor = 1 ∧
       p.reorder_threshold_multiplier = 1) := by
  unfold explanationParts
  split_ifs <;> simp_all <;> tauto

lemma baseSeries_eq : baseSeries = [70000, 72100, 74200, 76300] := by
  norm_num [baseSeries, baseRevenue0, baseExpense, baseResult]

lemma revenueSeries_eq (p : SimulationParams) :
    revenueSeries p =
      [70000 * p.sales_growth_multiplier, 72100 * p.sales_growth_multiplier,
       74200 * p.sales_growth_multiplier, 76300 * p.sales_growth_multiplier] := by
  rw [revenueSeries, baseSeries_eq]
  rfl

lemma revenueSum_eq (p : SimulationParams) :
    revenueSum p = 292600 * p.sales_growth_multiplier := by
  rw [revenueSum, revenueSeries_eq]
  simp [List.foldl]
  ring

lemma projectedCash_eq (p : SimulationParams) :
    projectedCash p =
      100000 + 292600 * p.sales_growth_multiplier -
        200000 * p.expense_growth_multiplier := by
  rw [projectedCash, revenueSum_eq, expenseSum, simulatedExpenseTotal]
  norm_num [baseExpense, baseResult]
  ring

lemma revenueForecast_eq (p : SimulationParams) :
    revenueForecast p =
      [("P1", ((jsRound (70000 * p.sales_growth_multiplier) : ℤ) : ℚ)),
       ("P2", ((jsRound (72100 * p.sales_growth_multiplier) : ℤ) : ℚ)),
       ("P3", ((jsRound (74200 * p.sales_growth_multiplier) : ℤ) : ℚ)),
       ("P4", ((jsRound (76300 * p.sales_growth_multiplier) : ℤ) : ℚ))] := by
  rw [revenueForecast, revenueSeries_eq]
  simp only [List.enum, List.enumFrom, List.map]
  refine congrArg₂ _ ?_ (congrArg₂ _ ?_ (congrArg₂ _ ?_ (congrArg₂ _ ?_ rfl))) <;>
    refine congrArg₂ _ (by decide) rfl

/-! ### Claims -/

/-- C1 (counterexample): with every multiplier at 1.0 the simulation does
not reproduce the baseline: the claimed conjunction (new health equals the
base health score, zero delta, fallback explanation) is false, because the
health formula measures risk against the fixed reference 40 while the
neutral risk index of this baseline is 6. -/
theorem c1_cex :
    ¬((runLocalSimulation DEFAULT_PARAMS).new_health_score =
        baseResult.metadata.base_health_score ∧
      (runLocalSimulation DEFAULT_PARAMS).delta_from_base = 0 ∧
      (runLocalSimulation DEFAULT_PARAMS).explanation_summary = fallbackSentence) := by
  intro h
  have h1 := h.1
  norm_num [runLocalSimulation, toFixed1Val, jsRound, newHealth, healthDelta,
    revenueVsExpenseDelta, riskDelta, supplierDelta, riskIndex, rawRisk,
    fraudComponent, inventoryComponent, expenseComponent, baseHealth, baseFraud,
    baseResult, DEFAULT_PARAMS] at h1

/-- C1 (amended): with every multiplier at 1.0 the explanation is the fixed
fallback sentence, but the health output is not the baseline: the simulation
returns new_health_score 82.6 and delta_from_base 7.6, since the neutral
risk index 6 sits 34 points below the formula's reference point 40. -/
theorem c1_amended :
    (runLocalSimulation DEFAULT_PARAMS).new_health_score = 82.6 ∧
    (runLocalSimulation DEFAULT_PARAMS).delta_from_base = 7.6 ∧
    (runLocalSimulation DEFAULT_PARAMS).explanation_summary = fallbackSentence := by
  refine ⟨?_, ?_, ?_⟩
  · norm_num [runLocalSimulation, toFixed1Val, jsRound, newHealth, healthDelta,
      revenueVsExpenseDelta, riskDelta, supplierDelta, riskIndex, rawRisk,
      fraudComponent, inventoryComponent, expenseComponent, baseHealth, baseFraud,
      baseResult, DEFAULT_PARAMS]
  · norm_num [runLocalSimulation, toFixed1Val, jsRound, deltaFromBase, newHealth,
      healthDelta, revenueVsExpenseDelta, riskDelta, supplierDelta, riskIndex,
      rawRisk, fraudComponent, inventoryComponent, expenseComponent, baseHealth,
      baseFraud, baseResult, DEFAULT_PARAMS]
  · norm_num [runLocalSimulation, explanationSummary, explanationParts,
      DEFAULT_PARAMS, String.intercalate]

/-- C2: for every parameter vector the returned risk_index and
new_health_score both lie in the interval [0, 100]. -/
theorem c2_bounded_outputs (p : SimulationParams) :
    (0 ≤ (runLocalSimulation p).risk_index ∧ (runLocalSimulation p).risk_index ≤ 100) ∧
    (0 ≤ (runLocalSimulation p).new_health_score ∧
      (runLocalSimulation p).new_health_score ≤ 100) := by
  have hr0 : (0 : ℚ) ≤ riskIndex p := le_max_left _ _
  have hr1 : riskIndex p ≤ 100 := max_le (by norm_num) (min_le_left _ _)
  have hh0 : (0 : ℚ) ≤ newHealth p := le_max_left _ _
  have hh1 : newHealth p ≤ 100 := max_le (by norm_num) (min_le_left _ _)
  exact ⟨⟨toFixed1Val_nonneg hr0, toFixed1Val_le_100 hr1⟩,
         ⟨toFixed1Val_nonneg hh0, toFixed1Val_le_100 hh1⟩⟩

/-- C2 witness: the bounds instantiated at a concrete parameter vector. -/
theorem c2_bounded_outputs_witness :
    (0 ≤ (runLocalSimulation pRisky).risk_index ∧
      (runLocalSimulation pRisky).risk_index ≤ 100) ∧
    (0 ≤ (runLocalSimulation pRisky).new_health_score ∧
      (runLocalSimulation pRisky).new_health_score ≤ 100) :=
  c2_bounded_outputs pRisky

/-- C3: at the fixed baseline with all multipliers 1.0 the simulation
returns the revenue forecast [(P1,70000), (P2,72100), (P3,74200),
(P4,76300)] and risk_index 6.0. -/
theorem c3_neutral_scenario :
    (runLocalSimulation DEFAULT_PARAMS).revenue_forecast =
      [("P1", 70000), ("P2", 72100), ("P3", 74200), ("P4", 76300)] ∧
    (runLocalSimulation DEFAULT_PARAMS).risk_index = 6.0 := by
  constructor
  · show revenueForecast DEFAULT_PARAMS = _
    rw [revenueForecast_eq]
    norm_num [jsRound, DEFAULT_PARAMS]
  · norm_num [runLocalSimulation, toFixed1Val, jsRound, riskIndex, rawRisk,
      fraudComponent, inventoryComponent, expenseComponent, baseFraud, baseResult,
      DEFAULT_PARAMS]

/-- C4: for two parameter vectors that agree on every lever except the
sales growth multiplier, where the second is at least as large, every
period's revenue forecast value and the projected cash are at least as
large in the second result. -/
theorem c4_sales_monotone (p q : SimulationParams)
    (he : p.expense_growth_multiplier = q.expense_growth_multiplier)
    (hf : p.fraud_sensitivity = q.fraud_sensitivity)
    (hd : p.supplier_delay_factor = q.supplier_delay_factor)
    (hr : p.reorder_threshold_multiplier = q.reorder_threshold_multiplier)
    (hs : p.sales_growth_multiplier ≤ q.sales_growth_multiplier) :
    List.Forall₂ (fun a b : String × ℚ => a.1 = b.1 ∧ a.2 ≤ b.2)
      (runLocalSimulation p).revenue_forecast
      (runLocalSimulation q).revenue_forecast ∧
    (runLocalSimulation p).projected_cash ≤ (runLocalSimulation q).projected_cash := by
  constructor
  · show List.Forall₂ _ (revenueForecast p) (revenueForecast q)
    rw [revenueForecast_eq, revenueForecast_eq]
    have m1 : jsRound (70000 * p.sales_growth_multiplier) ≤
        jsRound (70000 * q.sales_growth_multiplier) := jsRound_le_jsRound (by linarith)
    have m2 : jsRound (72100 * p.sales_growth_multiplier) ≤
        jsRound (72100 * q.sales_growth_multiplier) := jsRound_le_jsRound (by linarith)
    have m3 : jsRound (74200 * p.sales_growth_multiplier) ≤
        jsRound (74200 * q.sales_growth_multiplier) := jsRound_le_jsRound (by linarith)
    have m4 : jsRound (76300 * p.sales_growth_multiplier) ≤
        jsRound (76300 * q.sales_growth_multiplier) := jsRound_le_jsRound (by linarith)
    refine List.Forall₂.cons ⟨rfl, ?_⟩ (List.Forall₂.cons ⟨rfl, ?_⟩
      (List.Forall₂.cons ⟨rfl, ?_⟩ (List.Forall₂.cons ⟨rfl, ?_⟩ List.Forall₂.nil)))
    · exact Int.cast_le.mpr m1
    · exact Int.cast_le.mpr m2
    · exact Int.cast_le.mpr m3
    · exact Int.cast_le.mpr m4
  · show ((jsRound (projectedCash p) : ℤ) : ℚ) ≤ ((jsRound (projectedCash q) : ℤ) : ℚ)
    have hc : projectedCash p ≤ projectedCash q := by
      rw [projectedCash_eq, projectedCash_eq, he]
      linarith
    exact_mod_cast jsRound_le_jsRound hc

/-- C4 witness: monotonicity instantiated at the neutral vector against
the vector with sales growth 1.2, the hypotheses discharged concretely. -/
theorem c4_sales_monotone_witness :
    DEFAULT_PARAMS.sales_growth_multiplier ≤ pSales12.sales_growth_multiplier ∧
    (List.Forall₂ (fun a b : String × ℚ => a.1 = b.1 ∧ a.2 ≤ b.2)
      (runLocalSimulation DEFAULT_PARAMS).revenue_forecast
      (runLocalSimulation pSales12).revenue_forecast ∧
     (runLocalSimulation DEFAULT_PARAMS).projected_cash ≤
       (runLocalSimulation pSales12).projected_cash) :=
  ⟨by norm_num [DEFAULT_PARAMS, pSales12],
   c4_sales_monotone DEFAULT_PARAMS pSales12 rfl rfl rfl rfl
     (by norm_num [DEFAULT_PARAMS, pSales12])⟩

/-- C5: for every parameter vector the projected cash is the rounded value
of the starting cash 100000 plus the sum of the four (unrounded) revenue
values minus four times the scaled expense total, with no clamping; with a
sales growth multiplier of 0 it is negative. -/
theorem c5_cash_formula :
    (∀ p : SimulationParams,
        (runLocalSimulation p).projected_cash =
          ((jsRound (100000 +
              (70000 * p.sales_growth_multiplier + 72100 * p.sales_growth_multiplier +
               74200 * p.sales_growth_multiplier + 76300 * p.sales_growth_multiplier) -
              50000 * p.expense_growth_multiplier * 4) : ℤ) : ℚ)) ∧
    (runLocalSimulation pSalesZero).projected_cash < 0 := by
  constructor
  · intro p
    show ((jsRound (projectedCash p) : ℤ) : ℚ) = _
    have hx : projectedCash p =
        100000 + (70000 * p.sales_growth_multiplier + 72100 * p.sales_growth_multiplier +
          74200 * p.sales_growth_multiplier + 76300 * p.sales_growth_multiplier) -
          50000 * p.expense_growth_multiplier * 4 := by
      rw [projectedCash_eq]; ring
    rw [hx]
  · show ((jsRound (projectedCash pSalesZero) : ℤ) : ℚ) < 0
    rw [projectedCash_eq]
    norm_num [pSalesZero, DEFAULT_PARAMS, jsRound]

/-- C5 witness: the cash formula instantiated at the neutral vector. -/
theorem c5_cash_formula_witness :
    (runLocalSimulation DEFAULT_PARAMS).projected_cash =
      ((jsRound (100000 +
          (70000 * DEFAULT_PARAMS.sales_growth_multiplier +
           72100 * DEFAULT_PARAMS.sales_growth_multiplier +
           74200 * DEFAULT_PARAMS.sales_growth_multiplier +
           76300 * DEFAULT_PARAMS.sales_growth_multiplier) -
          50000 * DEFAULT_PARAMS.expense_growth_multiplier * 4) : ℤ) : ℚ) :=
  c5_cash_formula.1 DEFAULT_PARAMS

/-- C6: for every parameter vector the explanation summary is exactly the
space-separated concatenation, in the fixed sales / expense / fraud /
supply-chain order, of the template sentences of the levers that differ
from 1.0 under exact equality (the two supply-chain levers sharing one
combined sentence), with the fixed fallback sentence exactly when no lever
differs; it is always non-empty. -/
theorem c6_explanation_contract (p : SimulationParams) :
    (runLocalSimulation p).explanation_summary = specExplanationSummary p ∧
    (runLocalSimulation p).explanation_summary ≠ "" := by
  by_cases hN : p.sales_growth_multiplier = 1 ∧ p.expense_growth_multiplier = 1 ∧
      p.fraud_sensitivity = 1 ∧ p.supplier_delay_factor = 1 ∧
      p.reorder_threshold_multiplier = 1
  · have hE : explanationParts p = [] := (explanationParts_eq_nil_iff p).mpr hN
    have e1 : explanationSummary p = fallbackSentence := by
      simp [explanationSummary, hE, String.intercalate]
    have e2 : specExplanationSummary p = fallbackSentence := by
      simp [specExplanationSummary, hN]
    exact ⟨by show explanationSummary p = _; rw [e1, e2],
           by show explanationSummary p ≠ ""; rw [e1]; exact fallbackSentence_ne⟩
  · rcases hL : explanationParts p with _ | ⟨a, as⟩
    · exact absurd ((explanationParts_eq_nil_iff p).mp hL) hN
    · have ha : a ≠ "" :=
        explanationParts_mem_ne p a (by rw [hL]; exact List.mem_cons_self a as)
      have hj : String.intercalate " " (a :: as) ≠ "" := intercalate_cons_ne a as ha
      have e1 : explanationSummary p = String.intercalate " " (a :: as) := by
        simp [explanationSummary, hL, hj]
      have e2 : specExplanationSummary p = String.intercalate " " (a :: as) := by
        simp [specExplanationSummary, hN, hL]
      exact ⟨by show explanationSummary p = _; rw [e1, e2],
             by show explanationSummary p ≠ ""; rw [e1]; exact hj⟩

/-- C6 witness: the explanation contract instantiated at a concrete
parameter vector that moves the three risk levers. -/
theorem c6_explanation_contract_witness :
    (runLocalSimulation pRisky).explanation_summary = specExplanationSummary pRisky ∧
    (runLocalSimulation pRisky).explanation_summary ≠ "" :=
  c6_explanation_contract pRisky

/-- C7: with expense growth 1.3 and every other multiplier 1.0 the
returned risk index exceeds the all-neutral risk index by exactly 18, and
the explanation summary contains the sentence about increased expense
pressure (growth of 30%). -/
theorem c7_expense_scenario :
    (runLocalSimulation pExpense13).risk_index =
      (runLocalSimulation DEFAULT_PARAMS).risk_index + 18 ∧
    (∃ pre post : String,
      (runLocalSimulation pExpense13).explanation_summary =
        pre ++ expenseGrowSentence 30 ++ post) := by
  constructor
  · norm_num [runLocalSimulation, toFixed1Val, jsRound, riskIndex, rawRisk,
      fraudComponent, inventoryComponent, expenseComponent, baseFraud, baseResult,
      pExpense13, DEFAULT_PARAMS]
  · refine ⟨"", "", ?_⟩
    have hparts : explanationParts pExpense13 = [expenseGrowSentence 30] := by
      norm_num [explanationParts, pExpense13, DEFAULT_PARAMS, jsRound]
    have hx : (runLocalSimulation pExpense13).explanation_summary =
        expenseGrowSentence 30 := by
      show explanationSummary pExpense13 = _
      simp [explanationSummary, hparts, String.intercalate, String.intercalate.go,
        expenseGrowSentence_ne 30]
    rw [hx]
    decide

/-- C8: for every parameter vector, ten times each of new_health_score,
delta_from_base and risk_index is an integer, and projected_cash and each
revenue forecast value are integers. -/
theorem c8_rounding_shape (p : SimulationParams) :
    (∃ a : ℤ, 10 * (runLocalSimulation p).new_health_score = (a : ℚ)) ∧
    (∃ b : ℤ, 10 * (runLocalSimulation p).delta_from_base = (b : ℚ)) ∧
    (∃ c : ℤ, 10 * (runLocalSimulation p).risk_index = (c : ℚ)) ∧
    (∃ d : ℤ, (runLocalSimulation p).projected_cash = (d : ℚ)) ∧
    (∃ k1 k2 k3 k4 : ℤ,
      (runLocalSimulation p).revenue_forecast =
        [("P1", (k1 : ℚ)), ("P2", (k2 : ℚ)), ("P3", (k3 : ℚ)), ("P4", (k4 : ℚ))]) := by
  refine ⟨⟨jsRound (10 * newHealth p), ?_⟩, ⟨jsRound (10 * deltaFromBase p), ?_⟩,
    ⟨jsRound (10 * riskIndex p), ?_⟩, ⟨jsRound (projectedCash p), rfl⟩,
    ⟨jsRound (70000 * p.sales_growth_multiplier),
     jsRound (72100 * p.sales_growth_multiplier),
     jsRound (74200 * p.sales_growth_multiplier),
     jsRound (76300 * p.sales_growth_multiplier), revenueForecast_eq p⟩⟩
  · show 10 * toFixed1Val (newHealth p) = _
    rw [toFixed1Val]; ring
  · show 10 * toFixed1Val (deltaFromBase p) = _
    rw [toFixed1Val]; ring
  · show 10 * toFixed1Val (riskIndex p) = _
    rw [toFixed1Val]; ring

/-- C8 witness: the rounding shape instantiated at the neutral vector. -/
theorem c8_rounding_shape_witness :
    (∃ a : ℤ, 10 * (runLocalSimulation DEFAULT_PARAMS).new_health_score = (a : ℚ)) ∧
    (∃ b : ℤ, 10 * (runLocalSimulation DEFAULT_PARAMS).delta_from_base = (b : ℚ)) ∧
    (∃ c : ℤ, 10 * (runLocalSimulation DEFAULT_PARAMS).risk_index = (c : ℚ)) ∧
    (∃ d : ℤ, (runLocalSimulation DEFAULT_PARAMS).projected_cash = (d : ℚ)) ∧
    (∃ k1 k2 k3 k4 : ℤ,
      (runLocalSimulation DEFAULT_PARAMS).revenue_forecast =
        [("P1", (k1 : ℚ)), ("P2", (k2 : ℚ)), ("P3", (k3 : ℚ)), ("P4", (k4 : ℚ))]) :=
  c8_rounding_shape DEFAULT_PARAMS

/-- C9: two parameter vectors that agree on the sales growth and expense
growth multipliers produce identical revenue forecasts and identical
projected cash, whatever the three risk levers are. -/
theorem c9_noninterference (p q : SimulationParams)
    (hs : p.sales_growth_multiplier = q.sales_growth_multiplier)
    (he : p.expense_growth_multiplier = q.expense_growth_multiplier) :
    (runLocalSimulation p).revenue_forecast = (runLocalSimulation q).revenue_forecast ∧
    (runLocalSimulation p).projected_cash = (runLocalSimulation q).projected_cash := by
  constructor
  · show revenueForecast p = revenueForecast q
    rw [revenueForecast_eq, revenueForecast_eq, hs]
  · show ((jsRound (projectedCash p) : ℤ) : ℚ) = ((jsRound (projectedCash q) : ℤ) : ℚ)
    rw [projectedCash_eq, projectedCash_eq, hs, he]

/-- C9 witness: noninterference instantiated at the neutral vector against
the vector that moves only the three risk levers. -/
theorem c9_noninterference_witness :
    DEFAULT_PARAMS.sales_growth_multiplier = pRisky.sales_growth_multiplier ∧
    DEFAULT_PARAMS.expense_growth_multiplier = pRisky.expense_growth_multiplier ∧
    ((runLocalSimulation DEFAULT_PARAMS).revenue_forecast =
        (runLocalSimulation pRisky).revenue_forecast ∧
      (runLocalSimulation DEFAULT_PARAMS).projected_cash =
        (runLocalSimulation pRisky).projected_cash) :=
  ⟨rfl, rfl, c9_noninterference DEFAULT_PARAMS pRisky rfl rfl⟩

/-- C10: for every parameter vector the result's metadata is the fixed
baseline record (health 75, expenses 50000, fraud 10), and the cash
projection starts from the fixed 100000. -/
theorem c10_fixed_baseline (p : SimulationParams) :
    (runLocalSimulation p).metadata =
      { base_health_score := 75, base_expense_total := 50000,
        fraud_rate_percent := 10 } ∧
    (runLocalSimulation p).projected_cash =
      ((jsRound (100000 + 292600 * p.sales_growth_multiplier -
          200000 * p.expense_growth_multiplier) : ℤ) : ℚ) := by
  constructor
  · rfl
  · show ((jsRound (projectedCash p) : ℤ) : ℚ) = _
    rw [projectedCash_eq]

/-- C10 witness: the fixed baseline instantiated at a concrete vector. -/
theorem c10_fixed_baseline_witness :
    (runLocalSimulation pRisky).metadata =
      { base_health_score := 75, base_expense_total := 50000,
        fraud_rate_percent := 10 } ∧
    (runLocalSimulation pRisky).projected_cash =
      ((jsRound (100000 + 292600 * pRisky.sales_growth_multiplier -
          200000 * pRisky.expense_growth_multiplier) : ℤ) : ℚ) :=
  c10_fixed_baseline pRisky
